import Mathlib

/-! Shallow embedding of the skylogix real-time weather data pipeline
(src/extract.py, src/transform.py, src/load.py, src/utils.py).

Machine floats are modelled as exact rationals; a pandas/numpy missing value
(NaN, or a JSON `null`) is modelled as `none : Option ℚ`.  A pandas column is a
`List (Option ℚ)`; a DataFrame is a structure holding one list per column. -/

namespace Weather

/-- The non-null values of a pandas Series, in order: NaN entries are dropped,
as pandas `quantile` and `median` do before computing. -/
def nonNull (col : List (Option ℚ)) : List ℚ := col.filterMap id

/-- Insert a value into an ascending-sorted list, keeping it sorted. -/
def insertAsc (x : ℚ) : List ℚ → List ℚ
  | [] => [x]
  | y :: ys => if x ≤ y then x :: y :: ys else y :: insertAsc x ys

/-- Ascending insertion sort, modelling the sort underlying numpy order
statistics. -/
def sortAsc (xs : List ℚ) : List ℚ := xs.foldr insertAsc []

/-- The linear-interpolation quantile of a nonempty series: sort ascending,
take fractional position `q * (n - 1)`, and interpolate linearly between the
two neighbouring order statistics. -/
def quantileVal (q : ℚ) (xs : List ℚ) : ℚ :=
  let s := sortAsc xs
  let n := s.length
  let pos : ℚ := q * ((n : ℚ) - 1)
  let i : ℕ := (⌊pos⌋).toNat
  let frac : ℚ := pos - (i : ℚ)
  let lo := s.getD i 0
  let hi := s.getD (min (i + 1) (n - 1)) 0
  lo + frac * (hi - lo)

/-- pandas `Series.quantile(q)` with the default linear interpolation, applied
to the non-NaN values `xs`.  An empty series yields NaN (`none`). -/
def quantile (q : ℚ) (xs : List ℚ) : Option ℚ :=
  if xs = [] then none else some (quantileVal q xs)

/-- pandas `Series.median()`: the linear-interpolation quantile at probability
`1/2` of the non-NaN values (for even counts this is the mean of the two middle
values). -/
def median (xs : List ℚ) : Option ℚ := quantile (1/2) xs

/-- `q1 = cleaned_df[col].quantile(0.05)` (transform.py line 174). -/
def q1 (col : List (Option ℚ)) : Option ℚ := quantile (1/20) (nonNull col)

/-- `q3 = cleaned_df[col].quantile(0.95)` (transform.py line 175). -/
def q3 (col : List (Option ℚ)) : Option ℚ := quantile (19/20) (nonNull col)

/-- The outlier mask `(cleaned_df[col] < lower_bound) | (cleaned_df[col] > upper_bound)`
of transform.py lines 176-181, where `iqr = q3 - q1`,
`lower_bound = q1 - 1.5 * iqr` and `upper_bound = q3 + 1.5 * iqr`.
A pandas comparison in which either side is NaN is `False`, so a NaN entry is
never an outlier, and an all-NaN column (NaN quantiles) has no outliers. -/
def isOutlier (qa qb : Option ℚ) (v : Option ℚ) : Bool :=
  match v, qa, qb with
  | some x, some a, some b =>
    let iqr := b - a
    let lower_bound := a - 3/2 * iqr
    let upper_bound := b + 3/2 * iqr
    decide (x < lower_bound) || decide (upper_bound < x)
  | _, _, _ => false

/-- `outliers = ((cleaned_df[col] < lower_bound) | (cleaned_df[col] > upper_bound)).sum()`
(transform.py line 181): how many entries the mask marks. -/
def outlierCount (col : List (Option ℚ)) : ℕ :=
  col.countP (isOutlier (q1 col) (q3 col))

/-- `cleaned_df.loc[mask, col] = None` (transform.py line 185): every entry the
outlier mask marks becomes NaN; all other entries are kept. -/
def maskOutliers (col : List (Option ℚ)) : List (Option ℚ) :=
  col.map fun v => if isOutlier (q1 col) (q3 col) v then none else v

/-- `cleaned_df[col].median()` as it appears on transform.py line 188: the
median is taken over the column after outliers were replaced by NaN, i.e. over
the remaining non-outlier values. -/
def colMedian (col : List (Option ℚ)) : Option ℚ :=
  median (nonNull (maskOutliers col))

/-- `cleaned_df[col] = cleaned_df[col].fillna(cleaned_df[col].median())`
(transform.py line 188): NaN entries (original nulls and newly masked
outliers) are replaced by the median of the remaining values; `fillna` with a
NaN argument leaves NaN entries unchanged. -/
def fillMissing (col : List (Option ℚ)) : List (Option ℚ) :=
  (maskOutliers col).map fun v =>
    match v with
    | some x => some x
    | none => colMedian col

/-- One numeric-column pass of `_clean_data` (transform.py lines 171-188):
the cleaned column together with the number of outliers counted for the
`OUTLIERS_DETECTED` metric. -/
def cleanColumn (col : List (Option ℚ)) : List (Option ℚ) × ℕ :=
  (fillMissing col, outlierCount col)

/-- `celsius_to_fahrenheit` (utils.py lines 95-105): `(celsius * 9/5) + 32`,
with Python's left-to-right evaluation. -/
def celsius_to_fahrenheit (celsius : ℚ) : ℚ := celsius * 9 / 5 + 32

/-- `fahrenheit_to_celsius` (utils.py lines 107-117): `(fahrenheit - 32) * 5/9`. -/
def fahrenheit_to_celsius (fahrenheit : ℚ) : ℚ := (fahrenheit - 32) * 5 / 9

/-! ### Calendar dates

`get_date_range` (utils.py lines 67-93) works on `datetime` values parsed from
strings in YYYY-MM-DD form.  A date string is represented here by its parsed
(year, month, day) fields; the `datetime` value the loop steps through is
represented by its proleptic-Gregorian day ordinal (days since 1970-01-01),
with `toOrdinal` / `fromOrdinal` converting between the two views exactly as
`datetime.toordinal` / `fromordinal` do (up to the constant epoch shift). -/

/-- A calendar date, the parsed form of a YYYY-MM-DD string. -/
structure Date where
  year : Int
  month : Int
  day : Int
deriving DecidableEq

/-- The Gregorian leap-year rule, as implemented by `datetime`. -/
def isLeap (y : Int) : Bool := y % 4 == 0 && (y % 100 != 0 || y % 400 == 0)

/-- Number of days in a month of the Gregorian calendar. -/
def daysInMonth (y : Int) (m : Int) : Int :=
  if m = 2 then (if isLeap y then 29 else 28)
  else if m = 4 ∨ m = 6 ∨ m = 9 ∨ m = 11 then 30 else 31

/-- A (year, month, day) triple that denotes an actual calendar date — the
strings `datetime.strptime` accepts without raising. -/
def Date.valid (d : Date) : Prop :=
  1 ≤ d.month ∧ d.month ≤ 12 ∧ 1 ≤ d.day ∧ d.day ≤ daysInMonth d.year d.month

instance (d : Date) : Decidable d.valid := by
  unfold Date.valid; infer_instance

/-- Day ordinal of a proleptic-Gregorian date: the number of days since
1970-01-01 (days-from-civil, written with floor division like the Python
implementation underlying `datetime.date.toordinal`). -/
def toOrdinal (d : Date) : Int :=
  let y : Int := if d.month ≤ 2 then d.year - 1 else d.year
  let era : Int := y / 400
  let yoe : Int := y - era * 400
  let mp : Int := if d.month ≤ 2 then d.month + 9 else d.month - 3
  let doy : Int := (153 * mp + 2) / 5 + (d.day - 1)
  let doe : Int := 365 * yoe + yoe / 4 - yoe / 100 + doy
  era * 146097 + doe - 719468

/-- Reassemble a civil date from an era index, a year-of-era and a day-of-year
(counted from March 1). -/
def civilFromParts (era yoe doy : Int) : Date :=
  let mp : Int := (5 * doy + 2) / 153
  let d : Int := doy - (153 * mp + 2) / 5 + 1
  let m : Int := if mp < 10 then mp + 3 else mp - 9
  { year := if m ≤ 2 then yoe + era * 400 + 1 else yoe + era * 400,
    month := m, day := d }

/-- Split a day-of-era into year-of-era and day-of-year and reassemble the
civil date (civil-from-days). -/
def civilFromDoe (era doe : Int) : Date :=
  let yoe : Int := (doe - doe / 1460 + doe / 36524 - doe / 146096) / 365
  civilFromParts era yoe (doe - (365 * yoe + yoe / 4 - yoe / 100))

/-- The calendar date with the given day ordinal, inverse of `toOrdinal`
(the `datetime.date.fromordinal` view). -/
def fromOrdinal (z0 : Int) : Date :=
  let z := z0 + 719468
  let era := z / 146097
  civilFromDoe era (z - era * 146097)

/-- The `while current <= end` loop of `get_date_range` (utils.py lines 85-87)
on day ordinals: collect the current day and step one day forward. -/
def dateRangeLoop (cur stop : Int) : List Int :=
  if h : cur ≤ stop then cur :: dateRangeLoop (cur + 1) stop else []
termination_by (stop + 1 - cur).toNat
decreasing_by omega

/-- `get_date_range` (utils.py lines 67-93): walk day by day from the parsed
start date to the parsed end date inclusive, rendering each day back to a
calendar date (the model of `strftime` output).  A start after the end yields
the empty list, as the loop never runs. -/
def get_date_range (start_date end_date : Date) : List Date :=
  (dateRangeLoop (toOrdinal start_date) (toOrdinal end_date)).map fromOrdinal

/-! ### Raw observations and feature extraction (transform.py) -/

/-- The `main` block of an OpenWeatherMap response; absent numeric fields
read as `None` via `.get(_, None)`. -/
structure MainBlock where
  temp : Option ℚ
  feels_like : Option ℚ
  temp_min : Option ℚ
  temp_max : Option ℚ
  pressure : Option ℚ
  humidity : Option ℚ
deriving DecidableEq

/-- The `wind` block of a response. -/
structure WindBlock where
  speed : Option ℚ
  deg : Option ℚ
deriving DecidableEq

/-- One entry of the `weather` condition list. -/
structure WeatherItem where
  main : Option String
  description : Option String
deriving DecidableEq

/-- One raw observation JSON document: provider fields plus the metadata the
extractor injects.  A `none` top-level field models an absent key.
`extraction_timestamp` is always injected by the extractor (extract.py line
125); timestamps are modelled as epoch seconds. -/
structure RawRecord where
  main : Option MainBlock
  wind : Option WindBlock
  weather : Option (List WeatherItem)
  city_name : Option String
  country_code : Option String
  dt : Option Int
  extraction_timestamp : Int
deriving DecidableEq

/-- The required-keys check of transform.py line 95:
`all(key in record for key in ['main', 'wind', 'weather', 'city_name', 'country_code'])`. -/
def hasRequiredKeys (r : RawRecord) : Bool :=
  r.main.isSome && r.wind.isSome && r.weather.isSome &&
    r.city_name.isSome && r.country_code.isSome

/-- A clean record (transform.py lines 126-140). -/
structure CleanRecord where
  city : String
  country : String
  timestamp : Int
  temperature : Option ℚ
  feels_like : Option ℚ
  temp_min : Option ℚ
  temp_max : Option ℚ
  pressure : Option ℚ
  humidity : Option ℚ
  wind_speed : Option ℚ
  wind_direction : Option ℚ
  weather_condition : Option String
  weather_description : Option String
deriving DecidableEq

/-- Build one clean record from a raw record (transform.py lines 99-140); the
`getD` defaults are never reached, because the code only reads these fields
after `hasRequiredKeys` passed.  The timestamp comes from the provider `dt`
epoch field when present, else from the injected extraction timestamp. -/
def toCleanRecord (r : RawRecord) : CleanRecord :=
  let mb := r.main.getD ⟨none, none, none, none, none, none⟩
  let wb := r.wind.getD ⟨none, none⟩
  let wl := r.weather.getD []
  { city := r.city_name.getD ""
    country := r.country_code.getD ""
    timestamp := r.dt.getD r.extraction_timestamp
    temperature := mb.temp
    feels_like := mb.feels_like
    temp_min := mb.temp_min
    temp_max := mb.temp_max
    pressure := mb.pressure
    humidity := mb.humidity
    wind_speed := wb.speed
    wind_direction := wb.deg
    weather_condition := match wl with | [] => none | w :: _ => w.main
    weather_description := match wl with | [] => none | w :: _ => w.description }

/-- `_extract_weather_features` (transform.py lines 80-150): process each raw
record in turn; a record that fails the required-keys check is logged and
skipped (`continue`), every other record yields one clean record.  A skip is a
per-record event and never stops the surrounding loop. -/
def extract_weather_features : List RawRecord → List CleanRecord
  | [] => []
  | r :: rest =>
    if hasRequiredKeys r then toCleanRecord r :: extract_weather_features rest
    else extract_weather_features rest

/-! ### DataFrames and `_clean_data` -/

/-- The DataFrame built from the extracted records (`pd.DataFrame(weather_records)`,
transform.py line 148), one list per column. -/
structure WeatherDF where
  city : List String
  country : List String
  timestamp : List Int
  temperature : List (Option ℚ)
  feels_like : List (Option ℚ)
  temp_min : List (Option ℚ)
  temp_max : List (Option ℚ)
  pressure : List (Option ℚ)
  humidity : List (Option ℚ)
  wind_speed : List (Option ℚ)
  wind_direction : List (Option ℚ)
  weather_condition : List (Option String)
  weather_description : List (Option String)
deriving DecidableEq

/-- Column view of a list of clean records. -/
def toDF (records : List CleanRecord) : WeatherDF where
  city := records.map CleanRecord.city
  country := records.map CleanRecord.country
  timestamp := records.map CleanRecord.timestamp
  temperature := records.map CleanRecord.temperature
  feels_like := records.map CleanRecord.feels_like
  temp_min := records.map CleanRecord.temp_min
  temp_max := records.map CleanRecord.temp_max
  pressure := records.map CleanRecord.pressure
  humidity := records.map CleanRecord.humidity
  wind_speed := records.map CleanRecord.wind_speed
  wind_direction := records.map CleanRecord.wind_direction
  weather_condition := records.map CleanRecord.weather_condition
  weather_description := records.map CleanRecord.weather_description

/-- The DataFrame `_clean_data` returns: the thirteen input columns plus the
four derived columns added on transform.py lines 198-203. -/
structure CleanedDF where
  city : List String
  country : List String
  timestamp : List Int
  temperature : List (Option ℚ)
  feels_like : List (Option ℚ)
  temp_min : List (Option ℚ)
  temp_max : List (Option ℚ)
  pressure : List (Option ℚ)
  humidity : List (Option ℚ)
  wind_speed : List (Option ℚ)
  wind_direction : List (Option ℚ)
  weather_condition : List (Option String)
  weather_description : List (Option String)
  date : List Date
  hour : List Int
  day_of_week : List String
  temp_range : List (Option ℚ)
deriving DecidableEq

/-- `fillna('Unknown')` on a categorical column (transform.py lines 194-195). -/
def fillUnknown (col : List (Option String)) : List (Option String) :=
  col.map fun v =>
    match v with
    | some s => some s
    | none => some ("Unknown")

/-- `timestamp.dt.date` for an epoch-second timestamp. -/
def epochToDate (t : Int) : Date := fromOrdinal (t / 86400)

/-- `timestamp.dt.hour` for an epoch-second timestamp. -/
def epochHour (t : Int) : Int := t % 86400 / 3600

/-- `timestamp.dt.day_name()`: the weekday name of an epoch-second timestamp
(1970-01-01, day ordinal 0, was a Thursday). -/
def dayName (t : Int) : String :=
  let i := (t / 86400 + 3) % 7
  if i = 0 then "Monday" else if i = 1 then "Tuesday" else if i = 2 then "Wednesday"
  else if i = 3 then "Thursday" else if i = 4 then "Friday"
  else if i = 5 then "Saturday" else "Sunday"

/-- Elementwise subtraction of two numeric columns: NaN propagates
(`temp_range = temp_max - temp_min`, transform.py line 203). -/
def optSub (a b : Option ℚ) : Option ℚ :=
  match a, b with
  | some x, some y => some (x - y)
  | _, _ => none

/-- The two pandas objects alive inside `_clean_data`: the caller's DataFrame
`df` and the working copy `cleaned_df`.  Each statement of the function body is
a step on this state, targeting the object the source assigns into. -/
structure CleanState where
  df : WeatherDF
  cleaned : CleanedDF
deriving DecidableEq

/-- `df.copy()`: a fresh object with the same column values. -/
def WeatherDF.copy (df : WeatherDF) : WeatherDF := df

/-- The working copy right after `cleaned_df = df.copy()` (transform.py line
163): the thirteen copied columns; the derived columns do not exist yet. -/
def initCleaned (df : WeatherDF) : CleanedDF :=
  { city := df.city, country := df.country, timestamp := df.timestamp
    temperature := df.temperature, feels_like := df.feels_like
    temp_min := df.temp_min, temp_max := df.temp_max
    pressure := df.pressure, humidity := df.humidity
    wind_speed := df.wind_speed, wind_direction := df.wind_direction
    weather_condition := df.weather_condition
    weather_description := df.weather_description
    date := [], hour := [], day_of_week := [], temp_range := [] }

/-- Line 163: `cleaned_df = df.copy()`.  `df` itself is only ever read from
this point on. -/
def stepCopy (df : WeatherDF) : CleanState :=
  { df := df, cleaned := initCleaned df.copy }

/-- Lines 165-191: the numeric-column loop, assigning each cleaned column
back into `cleaned_df`. -/
def stepNumeric (s : CleanState) : CleanState :=
  { s with cleaned := { s.cleaned with
      temperature := (cleanColumn s.cleaned.temperature).1
      feels_like := (cleanColumn s.cleaned.feels_like).1
      temp_min := (cleanColumn s.cleaned.temp_min).1
      temp_max := (cleanColumn s.cleaned.temp_max).1
      pressure := (cleanColumn s.cleaned.pressure).1
      humidity := (cleanColumn s.cleaned.humidity).1
      wind_speed := (cleanColumn s.cleaned.wind_speed).1
      wind_direction := (cleanColumn s.cleaned.wind_direction).1 } }

/-- Lines 194-195: fill categorical nulls in `cleaned_df`. -/
def stepCategorical (s : CleanState) : CleanState :=
  { s with cleaned := { s.cleaned with
      weather_condition := fillUnknown s.cleaned.weather_condition
      weather_description := fillUnknown s.cleaned.weather_description } }

/-- Lines 198-203: add the derived columns to `cleaned_df`. -/
def stepDerived (s : CleanState) : CleanState :=
  { s with cleaned := { s.cleaned with
      date := s.cleaned.timestamp.map epochToDate
      hour := s.cleaned.timestamp.map epochHour
      day_of_week := s.cleaned.timestamp.map dayName
      temp_range := List.zipWith optSub s.cleaned.temp_max s.cleaned.temp_min } }

/-- The full `_clean_data` body (transform.py lines 152-205) as a run over the
two-object state. -/
def clean_data_run (df : WeatherDF) : CleanState :=
  stepDerived (stepCategorical (stepNumeric (stepCopy df)))

/-- `_clean_data`: the DataFrame the function returns. -/
def clean_data (df : WeatherDF) : CleanedDF := (clean_data_run df).cleaned

/-! ### `transform_data` (transform.py lines 207-244) -/

/-- Outcome reported by `transform_data`: the soft no-data outcome of lines
219-222 and 227-230, or a successful run. -/
inductive TransformStatus
  | noData
  | success
deriving DecidableEq

/-- Result of `transform_data`: `returned = none` models the empty
`pd.DataFrame()` the no-data branches return; `saved` is the processed table
written by `_save_processed_data`, if any. -/
structure TransformResult where
  returned : Option CleanedDF
  saved : Option CleanedDF
  status : TransformStatus
deriving DecidableEq

/-- `transform_data` (transform.py lines 207-244), as a function of the loaded
raw data: with no raw files, or with no extractable records, it returns an
empty table, writes nothing, and reports the no-data outcome instead of
raising; otherwise it cleans, saves and returns the table. -/
def transform_data (rawData : List RawRecord) : TransformResult :=
  if rawData.isEmpty then
    { returned := none, saved := none, status := TransformStatus.noData }
  else
    let records := extract_weather_features rawData
    if records.isEmpty then
      { returned := none, saved := none, status := TransformStatus.noData }
    else
      let cleaned := clean_data (toDF records)
      { returned := some cleaned, saved := some cleaned,
        status := TransformStatus.success }

/-! ### Extraction (extract.py) -/

/-- A configured city: `{name, country}` pair from the config. -/
structure City where
  name : String
  country : String
deriving DecidableEq

/-- The retry loop of `_make_api_request`, trying attempts `k`,
`k + 1`, ... while fuel lasts. -/
def makeApiRequestAux (attempts : ℕ → Option RawRecord) : ℕ → ℕ → Option RawRecord
  | _, 0 => none
  | k, fuel + 1 =>
    match attempts k with
    | some d => some d
    | none => makeApiRequestAux attempts (k + 1) fuel

/-- `_make_api_request` (extract.py lines 72-108): issue up to `retry_attempts`
requests, returning the first successful JSON payload; when the last attempt
also fails the city is marked failed and the empty dict is returned, modelled
as `none`.  `attempts k` is the outcome of the k-th HTTP request — `none` is a
`RequestException` (timeout or bad status). -/
def make_api_request (retry_attempts : ℕ) (attempts : ℕ → Option RawRecord) :
    Option RawRecord :=
  makeApiRequestAux attempts 0 retry_attempts

/-- Lines 124-127: inject the extraction timestamp and the city metadata into
a successful response before storing it. -/
def addMeta (now : Int) (c : City) (d : RawRecord) : RawRecord :=
  { d with
    extraction_timestamp := now
    city_name := some c.name
    country_code := some c.country }

/-- `extract_current_weather` (extract.py lines 110-137): one request per
configured city; a city whose request chain failed (`if data:` is false on the
empty dict) contributes nothing and the loop moves on, every successful city
contributes its enriched record, which is also saved to the raw data area
(line 132). -/
def extract_current_weather (retry_attempts : ℕ) (now : Int) (cities : List City)
    (attempts : City → ℕ → Option RawRecord) : List RawRecord :=
  cities.filterMap fun c =>
    (make_api_request retry_attempts (attempts c)).map (addMeta now c)

/-! ### Relational load (load.py lines 108-155) -/

/-- A SQLite database: named tables plus named indexes. -/
structure SQLiteDB (α : Type) where
  tables : List (String × List α)
  indexes : List String
deriving DecidableEq

/-- `df.to_sql(name, conn, if_exists='replace')`: drop any existing table of
that name and create it afresh with exactly the rows of the DataFrame. -/
def replaceTable {α : Type} (tables : List (String × List α)) (name : String)
    (rows : List α) : List (String × List α) :=
  (name, rows) :: tables.filter fun t => t.1 != name

/-- `CREATE INDEX IF NOT EXISTS`: add the index name unless already present. -/
def createIndexIfNotExists (idx : List String) (n : String) : List String :=
  if n ∈ idx then idx else idx ++ [n]

/-- `load_to_sqlite` (load.py lines 108-155), as a function of the rows of the
latest processed file (`none` when no processed file exists): replace the
`weather_data` table with those rows, ensure the two indexes, and report
success; with no processed file, report failure and leave the database
untouched. -/
def load_to_sqlite {α : Type} (latest : Option (List α)) (db : SQLiteDB α) :
    SQLiteDB α × Bool :=
  match latest with
  | none => (db, false)
  | some rows =>
    ({ tables := replaceTable db.tables ("weather_data") rows,
       indexes := createIndexIfNotExists
         (createIndexIfNotExists db.indexes ("idx_city")) ("idx_date") }, true)

/-! ### Statement vocabulary and concrete instances -/

/-- What the spec asserts of one numeric-column pass: q1 and q3 are the 5th and
95th percentiles, the bounds are `q1 - 1.5*IQR` and `q3 + 1.5*IQR`, the outlier
count is the number of values strictly outside the bounds, and every position
that was null or an outlier now holds the median of the remaining non-outlier
values, while in-bound values are untouched. -/
def cleanColumnSpec (col : List (Option ℚ)) : Prop :=
  ∃ a b, q1 col = some a ∧ q3 col = some b ∧
    (let iqr := b - a
     let lower_bound := a - 3/2 * iqr
     let upper_bound := b + 3/2 * iqr
     let med := median ((nonNull col).filter fun x =>
       decide (lower_bound ≤ x) && decide (x ≤ upper_bound))
     (cleanColumn col).2 = ((nonNull col).filter fun x =>
        decide (x < lower_bound) || decide (upper_bound < x)).length ∧
     (cleanColumn col).1.length = col.length ∧
     ∀ i (h1 : i < col.length) (h2 : i < (cleanColumn col).1.length),
       (cleanColumn col).1.get ⟨i, h2⟩ =
         match col.get ⟨i, h1⟩ with
         | none => med
         | some x =>
           if x < lower_bound ∨ upper_bound < x then med else some x)

/-- Per-column invariant of claim C2: the cleaned column has the input length
and every entry is either a finite value or the median of the input column's
remaining non-outlier values. -/
def imputedOk (input output : List (Option ℚ)) : Prop :=
  output.length = input.length ∧
  ∀ i (h : i < output.length),
    (∃ x, output.get ⟨i, h⟩ = some x) ∨
      output.get ⟨i, h⟩ = median (nonNull (maskOutliers input))

/-- Categorical invariant of claim C2: the cleaned column has the input length,
every entry is present, and an entry that was null is now the literal
"Unknown". -/
def unknownOk (input output : List (Option String)) : Prop :=
  output.length = input.length ∧
  ∀ i (h : i < output.length) (h2 : i < input.length),
    ∃ s, output.get ⟨i, h⟩ = some s ∧ (input.get ⟨i, h2⟩ = none → s = "Unknown")

/-- A small fully-populated column with no outliers. -/
def col3 : List (Option ℚ) := [some 0, some 1, some 2]

/-- A 21-value temperature column: eighteen zeroes, 10, 26 and an extreme
1000. -/
def x21 : List (Option ℚ) :=
  (List.replicate 18 (0 : ℚ) ++ [10, 26, 1000]).map some

/-- The non-null values of `x21`. -/
def l21 : List ℚ := List.replicate 18 (0 : ℚ) ++ [10, 26, 1000]

/-- The non-null values of `x21` that survive its outlier mask. -/
def m20 : List ℚ := List.replicate 18 (0 : ℚ) ++ [10, 26]

/-- The cleaned form of `x21`: 1000 was clipped and filled with the median 0. -/
def c21 : List (Option ℚ) :=
  (List.replicate 18 (0 : ℚ) ++ [10, 26, 0]).map some

/-- A 21-row batch whose temperature column is `x21`. -/
def wdf21 : WeatherDF :=
  { city := List.replicate 21 ("c"), country := List.replicate 21 ("NL"),
    timestamp := List.replicate 21 0,
    temperature := x21,
    feels_like := List.replicate 21 (some 0),
    temp_min := List.replicate 21 (some 0),
    temp_max := List.replicate 21 (some 0),
    pressure := List.replicate 21 (some 0),
    humidity := List.replicate 21 (some 0),
    wind_speed := List.replicate 21 (some 0),
    wind_direction := List.replicate 21 (some 0),
    weather_condition := List.replicate 21 (some ("Clear")),
    weather_description := List.replicate 21 (some ("clear sky")) }

/-- A two-row batch with some nulls, for concrete instantiations. -/
def wdf2 : WeatherDF :=
  { city := [("a"), ("b")], country := List.replicate 2 ("NL"),
    timestamp := [0, 86400],
    temperature := [some 1, none],
    feels_like := [some 1, some 2],
    temp_min := [none, none],
    temp_max := [some 3, some 4],
    pressure := [some 1000, some 1001],
    humidity := [some 50, some 60],
    wind_speed := [some 5, some 6],
    wind_direction := [some 100, some 200],
    weather_condition := [none, some ("Rain")],
    weather_description := [some ("clear sky"), none] }

/-- Two configured cities. -/
def cityA : City := ⟨"Amsterdam", "NL"⟩

/-- Second configured city. -/
def cityB : City := ⟨"Berlin", "DE"⟩

/-- A payload for a successful response. -/
def rawB : RawRecord := ⟨none, none, none, none, none, some 5, 0⟩

/-- An attempt oracle under which every request for `cityA` fails and every
request for `cityB` succeeds at once. -/
def attemptsEx : City → ℕ → Option RawRecord :=
  fun c _ => if c = cityB then some rawB else none


/-- Claim C2 for a whole batch: every cleaned numeric column satisfies the
imputation invariant against its input column, and the two categorical columns
are never empty, with nulls defaulted to "Unknown". -/
def c2Prop (df : WeatherDF) : Prop :=
  imputedOk df.temperature (clean_data df).temperature ∧
  imputedOk df.feels_like (clean_data df).feels_like ∧
  imputedOk df.temp_min (clean_data df).temp_min ∧
  imputedOk df.temp_max (clean_data df).temp_max ∧
  imputedOk df.pressure (clean_data df).pressure ∧
  imputedOk df.humidity (clean_data df).humidity ∧
  imputedOk df.wind_speed (clean_data df).wind_speed ∧
  imputedOk df.wind_direction (clean_data df).wind_direction ∧
  unknownOk df.weather_condition (clean_data df).weather_condition ∧
  unknownOk df.weather_description (clean_data df).weather_description

end Weather

namespace Weather

/-! ## Theorems -/

theorem quantile_eq (q : ℚ) (xs s : List ℚ) (i : ℕ) (r : ℚ) (hxs : xs ≠ [])
    (hs : sortAsc xs = s) (hfl : ⌊q * ((s.length : ℚ) - 1)⌋ = (i : ℤ))
    (hr : s.getD i 0 + (q * ((s.length : ℚ) - 1) - (i : ℚ)) *
      (s.getD (min (i + 1) (s.length - 1)) 0 - s.getD i 0) = r) :
    quantile q xs = some r := by
  unfold quantile quantileVal
  rw [if_neg hxs]
  simp only [hs, hfl, Int.toNat_natCast]
  rw [hr]

theorem countP_isOutlier (qa qb : Option ℚ) (col : List (Option ℚ)) :
    col.countP (isOutlier qa qb) =
      (nonNull col).countP fun x => isOutlier qa qb (some x) := by
  induction col with
  | nil => rfl
  | cons v rest ih =>
    cases v with
    | none => simp [nonNull, List.countP_cons, isOutlier, ih]
    | some x =>
      simp only [nonNull, List.filterMap_cons, id] at ih ⊢
      simp [List.countP_cons, ih]

theorem nonNull_mask (p : Option ℚ → Bool) (col : List (Option ℚ)) :
    nonNull (col.map fun v => if p v then none else v) =
      (nonNull col).filter fun x => ! p (some x) := by
  induction col with
  | nil => rfl
  | cons v rest ih =>
    cases v with
    | none =>
      by_cases hp : p none <;>
        simp [nonNull, List.filterMap_cons, hp, ih] <;>
        simpa [nonNull] using ih
    | some x =>
      by_cases hp : p (some x) <;>
        simp [nonNull, List.filterMap_cons, List.filter_cons, hp, ih] <;>
        simpa [nonNull] using ih

theorem not_isOutlier (a b x : ℚ) :
    (! isOutlier (some a) (some b) (some x)) =
      (decide (a - 3/2 * (b - a) ≤ x) && decide (x ≤ b + 3/2 * (b - a))) := by
  simp only [isOutlier, Bool.not_or, ← decide_not, not_lt]

theorem maskOutliers_nonNull (col : List (Option ℚ)) (a b : ℚ)
    (ha : q1 col = some a) (hb : q3 col = some b) :
    nonNull (maskOutliers col) =
      (nonNull col).filter fun x =>
        decide (a - 3/2 * (b - a) ≤ x) && decide (x ≤ b + 3/2 * (b - a)) := by
  rw [maskOutliers, ha, hb, nonNull_mask]
  exact List.filter_congr fun x _ => not_isOutlier a b x

theorem colMedian_eq (col : List (Option ℚ)) (a b : ℚ)
    (ha : q1 col = some a) (hb : q3 col = some b) :
    colMedian col =
      median ((nonNull col).filter fun x =>
        decide (a - 3/2 * (b - a) ≤ x) && decide (x ≤ b + 3/2 * (b - a))) := by
  rw [colMedian, maskOutliers_nonNull col a b ha hb]

theorem cleanColumn_length (col : List (Option ℚ)) :
    (cleanColumn col).1.length = col.length := by
  simp [cleanColumn, fillMissing, maskOutliers]

theorem cleanColumn_get (col : List (Option ℚ)) (a b : ℚ)
    (ha : q1 col = some a) (hb : q3 col = some b) (i : ℕ)
    (h1 : i < col.length) (h2 : i < (cleanColumn col).1.length) :
    (cleanColumn col).1.get ⟨i, h2⟩ =
      match col.get ⟨i, h1⟩ with
      | none => colMedian col
      | some x =>
        if x < a - 3/2 * (b - a) ∨ b + 3/2 * (b - a) < x then colMedian col
        else some x := by
  have h3 : i < (maskOutliers col).length := by simpa [maskOutliers] using h1
  have e1 : (cleanColumn col).1.get ⟨i, h2⟩ =
      (fun v => match v with
        | some x => some x
        | none => colMedian col) ((maskOutliers col).get ⟨i, h3⟩) := by
    simp [cleanColumn, fillMissing, List.get_eq_getElem, List.getElem_map]
  have e2 : (maskOutliers col).get ⟨i, h3⟩ =
      (fun v => if isOutlier (q1 col) (q3 col) v then none else v)
        (col.get ⟨i, h1⟩) := by
    simp [maskOutliers, List.get_eq_getElem, List.getElem_map]
  rw [e1, e2, ha, hb]
  cases hv : col.get ⟨i, h1⟩ with
  | none => simp [isOutlier]
  | some x =>
    by_cases hout : x < a - 3/2 * (b - a) ∨ b + 3/2 * (b - a) < x
    · have hb1 : isOutlier (some a) (some b) (some x) = true := by
        simpa [isOutlier, decide_eq_true_eq] using hout
      simp [hb1, hout]
    · have hb1 : isOutlier (some a) (some b) (some x) = false := by
        simpa [isOutlier, decide_eq_true_eq] using hout
      simp [hb1, hout]

/-- C1: for every batch with at least one non-null value in the column, the
cleaning step computes q1 and q3 as the 5th and 95th percentiles, sets
`lower_bound = q1 - 1.5*IQR` and `upper_bound = q3 + 1.5*IQR` with
`IQR = q3 - q1`, counts as outliers exactly the values strictly outside the
bounds, and afterwards every missing position (original nulls plus newly
marked outliers) holds the median of the remaining non-outlier values while
in-bound values are untouched. -/
theorem C1_clean_column (col : List (Option ℚ)) (h : nonNull col ≠ []) :
    cleanColumnSpec col := by
  have ha : q1 col = some (quantileVal (1/20) (nonNull col)) := by
    simp [q1, quantile, h]
  have hb : q3 col = some (quantileVal (19/20) (nonNull col)) := by
    simp [q3, quantile, h]
  refine ⟨_, _, ha, hb, ?_, cleanColumn_length col, ?_⟩
  · show outlierCount col = _
    rw [outlierCount, ha, hb, countP_isOutlier, List.countP_eq_length_filter]
    rfl
  · intro i h1 h2
    rw [cleanColumn_get col _ _ ha hb i h1 h2]
    rw [colMedian_eq col _ _ ha hb]

/-- C1 witness: the column `[0, 1, 2]` is nonempty, so the clean step
satisfies the per-column specification on it. -/
theorem C1_clean_column_witness : nonNull col3 ≠ [] ∧ cleanColumnSpec col3 :=
  ⟨by decide, C1_clean_column col3 (by decide)⟩


theorem cleanColumn_imputedOk (col : List (Option ℚ)) :
    imputedOk col (cleanColumn col).1 := by
  refine ⟨cleanColumn_length col, ?_⟩
  intro i h
  have h1 : i < col.length := by
    simpa [cleanColumn_length] using h
  have h3 : i < (maskOutliers col).length := by simpa [maskOutliers] using h1
  have e1 : (cleanColumn col).1.get ⟨i, h⟩ =
      (fun v => match v with
        | some x => some x
        | none => colMedian col) ((maskOutliers col).get ⟨i, h3⟩) := by
    simp [cleanColumn, fillMissing, List.get_eq_getElem, List.getElem_map]
  rw [e1]
  cases hv : (maskOutliers col).get ⟨i, h3⟩ with
  | none => exact Or.inr rfl
  | some x => exact Or.inl ⟨x, rfl⟩

theorem fillUnknown_unknownOk (col : List (Option String)) :
    unknownOk col (fillUnknown col) := by
  refine ⟨by simp [fillUnknown], ?_⟩
  intro i h h2
  have e : (fillUnknown col).get ⟨i, h⟩ =
      (fun v => match v with
        | some s => some s
        | none => some ("Unknown")) (col.get ⟨i, h2⟩) := by
    simp [fillUnknown, List.get_eq_getElem, List.getElem_map]
  rw [e]
  cases hv : col.get ⟨i, h2⟩ with
  | none => exact ⟨"Unknown", rfl, fun _ => rfl⟩
  | some s => exact ⟨s, rfl, fun hn => by cases hn⟩

/-- C2: for every batch, every record of the table `_clean_data` returns has
each numeric field either as a finite value or imputed with that column's
median over the remaining non-outlier values, and the categorical fields
`weather_condition` and `weather_description` are never empty — nulls become
the literal "Unknown". -/
theorem C2_clean_invariant (df : WeatherDF) : c2Prop df :=
  ⟨cleanColumn_imputedOk df.temperature,
   cleanColumn_imputedOk df.feels_like,
   cleanColumn_imputedOk df.temp_min,
   cleanColumn_imputedOk df.temp_max,
   cleanColumn_imputedOk df.pressure,
   cleanColumn_imputedOk df.humidity,
   cleanColumn_imputedOk df.wind_speed,
   cleanColumn_imputedOk df.wind_direction,
   fillUnknown_unknownOk df.weather_condition,
   fillUnknown_unknownOk df.weather_description⟩

/-- C2 witness: the invariant holds of the concrete two-row batch `wdf2`. -/
theorem C2_clean_invariant_witness : c2Prop wdf2 := C2_clean_invariant wdf2

/-- C6: the two temperature conversions of utils.py are exact mutual inverses
over exact arithmetic, and map 0 to 32, 100 to 212 and -40 to -40. -/
theorem C6_conversions_inverse :
    (∀ t : ℚ, fahrenheit_to_celsius (celsius_to_fahrenheit t) = t) ∧
    celsius_to_fahrenheit 0 = 32 ∧
    celsius_to_fahrenheit 100 = 212 ∧
    celsius_to_fahrenheit (-40) = -40 := by
  refine ⟨fun t => ?_, ?_, ?_, ?_⟩ <;>
    simp only [celsius_to_fahrenheit, fahrenheit_to_celsius] <;> ring

/-- C10: `_clean_data` never mutates its input table — every assignment in the
body targets the working copy made on line 163, so after the run the caller's
DataFrame object is unchanged, and the returned table is the cleaned copy. -/
theorem C10_input_not_mutated (df : WeatherDF) :
    (clean_data_run df).df = df ∧ (clean_data_run df).cleaned = clean_data df :=
  ⟨rfl, rfl⟩


/-- C3 (amended): on a numeric column with no missing values in which the
first cleaning pass detects zero outliers, the pass returns the column
unchanged, and a second pass over the output again detects zero outliers. -/
theorem C3_clean_idempotent_on_inliers (col : List (Option ℚ))
    (hfull : none ∉ col) (hzero : (cleanColumn col).2 = 0) :
    (cleanColumn col).1 = col ∧ (cleanColumn (cleanColumn col).1).2 = 0 := by
  have hcount : ∀ v ∈ col, isOutlier (q1 col) (q3 col) v = false := by
    intro v hv
    have h0 : col.countP (isOutlier (q1 col) (q3 col)) = 0 := hzero
    simpa using List.countP_eq_zero.mp h0 v hv
  have hmask : maskOutliers col = col := by
    rw [maskOutliers]
    have := List.map_congr_left (l := col)
      (f := fun v => if isOutlier (q1 col) (q3 col) v then none else v)
      (g := id) (fun v hv => by simp [hcount v hv])
    simpa using this
  have hfill : fillMissing col = col := by
    rw [fillMissing, hmask]
    have hstep : ∀ v ∈ col,
        (fun v => match v with
          | some x => some x
          | none => colMedian col) v = id v := by
      intro v hv
      cases v with
      | none => exact absurd hv hfull
      | some x => rfl
    simpa using List.map_congr_left hstep
  have h1 : (cleanColumn col).1 = col := hfill
  exact ⟨h1, by rw [h1]; exact hzero⟩

theorem col3_q1 : q1 col3 = some (1/10) := by
  have hnn : nonNull col3 = [0, 1, 2] := by decide
  have hs : sortAsc [0, 1, 2] = ([0, 1, 2] : List ℚ) := by decide
  have hlen : (([0, 1, 2] : List ℚ).length : ℚ) = 3 := by norm_num
  rw [q1, hnn]
  refine quantile_eq _ _ _ 0 _ (by decide) hs ?_ ?_
  · rw [hlen]; norm_num
  · rw [hlen]
    have g1 : ([0, 1, 2] : List ℚ).getD 0 0 = 0 := by decide
    have g2 : ([0, 1, 2] : List ℚ).getD
        (min 1 (([0, 1, 2] : List ℚ).length - 1)) 0 = 1 := by decide
    rw [g1, g2]; norm_num

theorem col3_q3 : q3 col3 = some (19/10) := by
  have hnn : nonNull col3 = [0, 1, 2] := by decide
  have hs : sortAsc [0, 1, 2] = ([0, 1, 2] : List ℚ) := by decide
  have hlen : (([0, 1, 2] : List ℚ).length : ℚ) = 3 := by norm_num
  rw [q3, hnn]
  refine quantile_eq _ _ _ 1 _ (by decide) hs ?_ ?_
  · rw [hlen]; norm_num
  · rw [hlen]
    have g1 : ([0, 1, 2] : List ℚ).getD 1 0 = 1 := by decide
    have g2 : ([0, 1, 2] : List ℚ).getD
        (min 2 (([0, 1, 2] : List ℚ).length - 1)) 0 = 2 := by decide
    rw [g1, g2]; norm_num

theorem col3_count : (cleanColumn col3).2 = 0 := by
  show outlierCount col3 = 0
  rw [outlierCount, col3_q1, col3_q3]
  have e0 : isOutlier (some (1/10)) (some (19/10)) (some (0 : ℚ)) = false := by
    simp only [isOutlier]; norm_num
  have e1 : isOutlier (some (1/10)) (some (19/10)) (some (1 : ℚ)) = false := by
    simp only [isOutlier]; norm_num
  have e2 : isOutlier (some (1/10)) (some (19/10)) (some (2 : ℚ)) = false := by
    simp only [isOutlier]; norm_num
  simp only [col3, List.countP_cons, List.countP_nil, e0, e1, e2]
  simp

/-- C3 witness: the fully populated column `[0, 1, 2]` has zero outliers, so
the cleaning pass leaves it unchanged and a second pass again finds zero. -/
theorem C3_clean_idempotent_witness :
    none ∉ col3 ∧ (cleanColumn col3).2 = 0 ∧
      ((cleanColumn col3).1 = col3 ∧ (cleanColumn (cleanColumn col3).1).2 = 0) :=
  ⟨by decide, col3_count, C3_clean_idempotent_on_inliers col3 (by decide) col3_count⟩

theorem x21_q1 : q1 x21 = some 0 := by
  have hnn : nonNull x21 = l21 := by decide
  have hs : sortAsc l21 = l21 := by decide
  have hlen : (l21.length : ℚ) = 21 := by norm_num [l21]
  rw [q1, hnn]
  refine quantile_eq _ _ _ 1 0 (by decide) hs ?_ ?_
  · rw [hlen]; norm_num
  · rw [hlen]
    have g1 : l21.getD 1 0 = 0 := by decide
    have g2 : l21.getD (min 2 (l21.length - 1)) 0 = 0 := by decide
    rw [g1, g2]; norm_num

theorem x21_q3 : q3 x21 = some 26 := by
  have hnn : nonNull x21 = l21 := by decide
  have hs : sortAsc l21 = l21 := by decide
  have hlen : (l21.length : ℚ) = 21 := by norm_num [l21]
  rw [q3, hnn]
  refine quantile_eq _ _ _ 19 26 (by decide) hs ?_ ?_
  · rw [hlen]; norm_num
  · rw [hlen]
    have g1 : l21.getD 19 0 = 26 := by decide
    have g2 : l21.getD (min 20 (l21.length - 1)) 0 = 1000 := by decide
    rw [g1, g2]; norm_num

theorem out26_0 : isOutlier (some 0) (some 26) (some (0 : ℚ)) = false := by
  simp only [isOutlier]; norm_num

theorem out26_10 : isOutlier (some 0) (some 26) (some (10 : ℚ)) = false := by
  simp only [isOutlier]; norm_num

theorem out26_26 : isOutlier (some 0) (some 26) (some (26 : ℚ)) = false := by
  simp only [isOutlier]; norm_num

theorem out26_1000 : isOutlier (some 0) (some 26) (some (1000 : ℚ)) = true := by
  simp only [isOutlier]; norm_num

theorem x21_mask : maskOutliers x21 =
    (List.replicate 18 (0 : ℚ)).map some ++ [some 10, some 26, none] := by
  rw [maskOutliers, x21_q1, x21_q3]
  simp only [x21, List.replicate, List.map, List.cons_append, List.nil_append,
    out26_0, out26_10, out26_26, out26_1000]
  simp

theorem x21_med : colMedian x21 = some 0 := by
  rw [colMedian, x21_mask]
  have hnn : nonNull ((List.replicate 18 (0 : ℚ)).map some ++
      [some 10, some 26, none]) = m20 := by decide
  rw [hnn, median]
  have hs : sortAsc m20 = m20 := by decide
  have hlen : (m20.length : ℚ) = 20 := by norm_num [m20]
  refine quantile_eq _ _ _ 9 0 (by decide) hs ?_ ?_
  · rw [hlen]; norm_num
  · rw [hlen]
    have g1 : m20.getD 9 0 = 0 := by decide
    have g2 : m20.getD (min 10 (m20.length - 1)) 0 = 0 := by decide
    rw [g1, g2]; norm_num

theorem x21_fill : (cleanColumn x21).1 = c21 := by
  show fillMissing x21 = c21
  rw [fillMissing, x21_mask]
  simp only [List.map_append, List.map_map, List.map_cons, List.map_nil, x21_med]
  decide

theorem c21_q1 : q1 c21 = some 0 := by
  have hnn : nonNull c21 = List.replicate 18 (0 : ℚ) ++ [10, 26, 0] := by decide
  have hs : sortAsc (List.replicate 18 (0 : ℚ) ++ [10, 26, 0]) =
      List.replicate 19 (0 : ℚ) ++ [10, 26] := by decide
  have hlen : ((List.replicate 19 (0 : ℚ) ++ [10, 26]).length : ℚ) = 21 := by
    norm_num
  rw [q1, hnn]
  refine quantile_eq _ _ _ 1 0 (by decide) hs ?_ ?_
  · rw [hlen]; norm_num
  · rw [hlen]
    have g1 : (List.replicate 19 (0 : ℚ) ++ [10, 26]).getD 1 0 = 0 := by decide
    have g2 : (List.replicate 19 (0 : ℚ) ++ [10, 26]).getD
        (min 2 ((List.replicate 19 (0 : ℚ) ++ [10, 26]).length - 1)) 0 = 0 := by
      decide
    rw [g1, g2]; norm_num

theorem c21_q3 : q3 c21 = some 10 := by
  have hnn : nonNull c21 = List.replicate 18 (0 : ℚ) ++ [10, 26, 0] := by decide
  have hs : sortAsc (List.replicate 18 (0 : ℚ) ++ [10, 26, 0]) =
      List.replicate 19 (0 : ℚ) ++ [10, 26] := by decide
  have hlen : ((List.replicate 19 (0 : ℚ) ++ [10, 26]).length : ℚ) = 21 := by
    norm_num
  rw [q3, hnn]
  refine quantile_eq _ _ _ 19 10 (by decide) hs ?_ ?_
  · rw [hlen]; norm_num
  · rw [hlen]
    have g1 : (List.replicate 19 (0 : ℚ) ++ [10, 26]).getD 19 0 = 10 := by decide
    have g2 : (List.replicate 19 (0 : ℚ) ++ [10, 26]).getD
        (min 20 ((List.replicate 19 (0 : ℚ) ++ [10, 26]).length - 1)) 0 = 26 := by
      decide
    rw [g1, g2]; norm_num

theorem out10_0 : isOutlier (some 0) (some 10) (some (0 : ℚ)) = false := by
  simp only [isOutlier]; norm_num

theorem out10_10 : isOutlier (some 0) (some 10) (some (10 : ℚ)) = false := by
  simp only [isOutlier]; norm_num

theorem out10_26 : isOutlier (some 0) (some 10) (some (26 : ℚ)) = true := by
  simp only [isOutlier]; norm_num

/-- C3 counterexample: on the 21-row batch `wdf21`, the first cleaning pass
clips the value 1000 of the temperature column (bounds [-39, 65]) and fills it
with the median 0; recomputed on the cleaned column, the bounds shrink to
[-15, 25], so the surviving value 26 is a new outlier — the second pass counts
1, not 0. -/
theorem C3_counterexample :
    (cleanColumn ((clean_data wdf21).temperature)).2 ≠ 0 := by
  have h1 : (clean_data wdf21).temperature = (cleanColumn x21).1 := rfl
  rw [h1, x21_fill]
  show outlierCount c21 ≠ 0
  rw [outlierCount, c21_q1, c21_q3]
  simp only [c21, List.replicate, List.map, List.cons_append, List.nil_append,
    List.countP_cons, List.countP_nil, out10_0, out10_10, out10_26]
  simp


/-- C4: with no raw observation files, or with feature extraction yielding
zero valid records, `transform_data` returns the empty table, writes no
processed file, and reports the no-data outcome; being a total function of
the loaded data, it raises no exception on this path. -/
theorem C4_no_data_soft (rawData : List RawRecord)
    (h : rawData = [] ∨ extract_weather_features rawData = []) :
    transform_data rawData =
      { returned := none, saved := none, status := TransformStatus.noData } := by
  rcases h with h | h
  · subst h; rfl
  · rw [transform_data]
    by_cases hr : rawData.isEmpty
    · simp [hr]
    · simp [hr, h]

/-- C4 witness: the empty staging area yields the no-data result. -/
theorem C4_no_data_soft_witness :
    transform_data [] =
      { returned := none, saved := none, status := TransformStatus.noData } :=
  C4_no_data_soft [] (Or.inl rfl)

/-- C5: feature extraction is exactly filter-then-map — every raw record
missing a required top-level section (main, wind, weather list, city or
country identifier) is excluded from the clean table, and every record that
passes the check is processed in order; a skipped record never aborts the
batch. -/
theorem C5_skip_incomplete_records (rawData : List RawRecord) :
    extract_weather_features rawData =
      (rawData.filter hasRequiredKeys).map toCleanRecord := by
  induction rawData with
  | nil => rfl
  | cons r rest ih =>
    by_cases h : hasRequiredKeys r <;>
      simp [extract_weather_features, List.filter_cons, h, ih]

/-- C7: a failed extraction for one city never suppresses another city's
result — whenever city `c` is configured and its request chain succeeds with
payload `d`, the enriched record for `c` is in the returned data, whatever the
other cities' attempt oracles do. -/
theorem C7_per_city_isolation (retry_attempts : ℕ) (now : Int)
    (cities : List City) (attempts : City → ℕ → Option RawRecord) (c : City)
    (d : RawRecord) (hc : c ∈ cities)
    (hd : make_api_request retry_attempts (attempts c) = some d) :
    addMeta now c d ∈ extract_current_weather retry_attempts now cities attempts := by
  unfold extract_current_weather
  exact List.mem_filterMap.mpr ⟨c, hc, by rw [hd]; rfl⟩

/-- C7 witness: with `cityA` always failing and `cityB` succeeding at once,
`cityB`'s record is still extracted. -/
theorem C7_per_city_isolation_witness :
    cityB ∈ [cityA, cityB] ∧
    make_api_request 3 (attemptsEx cityB) = some rawB ∧
    addMeta 7 cityB rawB ∈ extract_current_weather 3 7 [cityA, cityB] attemptsEx :=
  ⟨by decide, by decide,
    C7_per_city_isolation 3 7 [cityA, cityB] attemptsEx cityB rawB
      (by decide) (by decide)⟩

/-- C9: loading the same processed rows twice with replace semantics is
idempotent — the database state after the second load equals the state after
the first, exactly one `weather_data` table exists, and its content is exactly
the processed rows (hence the same row count, with no duplication). -/
theorem C9_replace_idempotent {α : Type} (rows : List α) (db : SQLiteDB α) :
    (load_to_sqlite (some rows) (load_to_sqlite (some rows) db).1).1 =
      (load_to_sqlite (some rows) db).1 ∧
    ((load_to_sqlite (some rows) (load_to_sqlite (some rows) db).1).1).tables.countP
        (fun t => t.1 == "weather_data") = 1 ∧
    List.lookup ("weather_data")
      ((load_to_sqlite (some rows) (load_to_sqlite (some rows) db).1).1).tables =
      some rows := by
  have hfilter : ∀ ts : List (String × List α),
      (replaceTable ts ("weather_data") rows).filter
        (fun t => t.1 != ("weather_data")) =
        ts.filter (fun t => t.1 != ("weather_data")) := by
    intro ts
    rw [replaceTable, List.filter_cons]
    simp [List.filter_filter]
  have hmem : ∀ (idx : List String) (n : String),
      n ∈ createIndexIfNotExists idx n := by
    intro idx n
    rw [createIndexIfNotExists]
    by_cases h : n ∈ idx <;> simp [h]
  have hmem2 : ∀ (idx : List String) (n m : String), n ∈ idx →
      n ∈ createIndexIfNotExists idx m := by
    intro idx n m h
    rw [createIndexIfNotExists]
    by_cases hm : m ∈ idx <;> simp [hm, h]
  have hidem : ∀ (idx : List String) (n : String), n ∈ idx →
      createIndexIfNotExists idx n = idx := by
    intro idx n h
    rw [createIndexIfNotExists, if_pos h]
  refine ⟨?_, ?_, ?_⟩
  · show (⟨replaceTable (replaceTable db.tables ("weather_data") rows)
      ("weather_data") rows, _⟩ : SQLiteDB α) = _
    congr 1
    · show replaceTable (replaceTable db.tables ("weather_data") rows)
        ("weather_data") rows = replaceTable db.tables ("weather_data") rows
      rw [replaceTable, hfilter, replaceTable]
    · have hI : (load_to_sqlite (some rows) db).1.indexes =
        createIndexIfNotExists (createIndexIfNotExists db.indexes ("idx_city"))
          ("idx_date") := rfl
      have h1 : createIndexIfNotExists (createIndexIfNotExists
          (createIndexIfNotExists db.indexes ("idx_city")) ("idx_date"))
          ("idx_city") =
          createIndexIfNotExists (createIndexIfNotExists db.indexes ("idx_city"))
            ("idx_date") :=
        hidem _ _ (hmem2 _ _ _ (hmem _ _))
      rw [hI, h1]
      exact hidem _ _ (hmem _ _)
  · show List.countP _ (replaceTable _ ("weather_data") rows) = 1
    rw [replaceTable, List.countP_cons]
    simp only [beq_self_eq_true, if_pos]
    have : List.countP (fun t => t.1 == ("weather_data"))
        (List.filter (fun t => t.1 != ("weather_data"))
          (replaceTable db.tables ("weather_data") rows)) = 0 := by
      rw [List.countP_eq_zero]
      intro a ha
      have := List.of_mem_filter ha
      simpa using this
    simp [this]
  · show List.lookup _ (replaceTable _ ("weather_data") rows) = some rows
    rw [replaceTable]
    simp [List.lookup]


set_option maxHeartbeats 8000000 in
theorem doy_bounds (doe yoe : Int) (h0 : 0 ≤ doe) (h1 : doe ≤ 146096)
    (hy : (doe - doe / 1460 + doe / 36524 - doe / 146096) / 365 = yoe) :
    0 ≤ doe - (365 * yoe + yoe / 4 - yoe / 100) ∧
    doe - (365 * yoe + yoe / 4 - yoe / 100) ≤ 365 := by
  have hlo : (0 : Int) ≤ yoe := by omega
  have hhi : yoe ≤ (399 : Int) := by omega
  interval_cases yoe <;> omega

theorem toOrdinal_civilFromDoe (era doe : Int) (h0 : 0 ≤ doe)
    (h1 : doe ≤ 146096) :
    toOrdinal (civilFromDoe era doe) = era * 146097 + doe - 719468 := by
  obtain ⟨yoe, hyd⟩ : ∃ v, (doe - doe / 1460 + doe / 36524 - doe / 146096) / 365 = v :=
    ⟨_, rfl⟩
  have hyoe : 0 ≤ yoe ∧ yoe ≤ 399 := by omega
  have hdoy := doy_bounds doe yoe h0 h1 hyd
  simp only [toOrdinal, civilFromDoe, civilFromParts, hyd]
  obtain ⟨doy, hdd⟩ : ∃ v, doe - (365 * yoe + yoe / 4 - yoe / 100) = v := ⟨_, rfl⟩
  rw [hdd] at hdoy
  simp only [hdd]
  obtain ⟨mp, hmpd⟩ : ∃ v, (5 * doy + 2) / 153 = v := ⟨_, rfl⟩
  have hmp : 0 ≤ mp ∧ mp ≤ 11 := by omega
  simp only [hmpd]
  have hk : (yoe + era * 400) / 400 = era := by omega
  clear hyd h0 h1
  split_ifs
  all_goals try rw [show yoe + era * 400 + 1 - 1 = yoe + era * 400 from by ring]
  all_goals try rw [show mp + 3 - 3 = mp from by ring]
  all_goals try rw [show mp - 9 + 9 = mp from by ring]
  all_goals try rw [hk]
  all_goals try rw [show yoe + era * 400 - era * 400 = yoe from by ring]
  all_goals omega

theorem toOrdinal_fromOrdinal (z : Int) : toOrdinal (fromOrdinal z) = z := by
  have h := toOrdinal_civilFromDoe ((z + 719468) / 146097)
    (z + 719468 - (z + 719468) / 146097 * 146097) (by omega) (by omega)
  simp only [fromOrdinal]
  omega

set_option maxHeartbeats 8000000 in
theorem yoe_inv (yoe doy : Int) (hy0 : 0 ≤ yoe) (hy1 : yoe ≤ 399) (hd0 : 0 ≤ doy)
    (hd1 : doy ≤ 364 ∨
      (doy = 365 ∧ (yoe + 1) % 4 = 0 ∧ ((yoe + 1) % 100 ≠ 0 ∨ yoe = 399))) :
    ((365 * yoe + yoe / 4 - yoe / 100 + doy) -
     (365 * yoe + yoe / 4 - yoe / 100 + doy) / 1460 +
     (365 * yoe + yoe / 4 - yoe / 100 + doy) / 36524 -
     (365 * yoe + yoe / 4 - yoe / 100 + doy) / 146096) / 365 = yoe := by
  interval_cases yoe <;> omega

theorem fromOrdinal_eq_civil (era doe : Int) (h0 : 0 ≤ doe) (h1 : doe ≤ 146096) :
    fromOrdinal (era * 146097 + doe - 719468) = civilFromDoe era doe := by
  unfold fromOrdinal
  have h2 : (era * 146097 + doe - 719468 + 719468) / 146097 = era := by omega
  simp only [h2]
  rw [show era * 146097 + doe - 719468 + 719468 - era * 146097 = doe from by ring]

theorem civilFromDoe_parts (era yoe doy : Int) (hy0 : 0 ≤ yoe) (hy1 : yoe ≤ 399)
    (hd0 : 0 ≤ doy)
    (hd1 : doy ≤ 364 ∨
      (doy = 365 ∧ (yoe + 1) % 4 = 0 ∧ ((yoe + 1) % 100 ≠ 0 ∨ yoe = 399))) :
    civilFromDoe era (365 * yoe + yoe / 4 - yoe / 100 + doy) =
      civilFromParts era yoe doy := by
  unfold civilFromDoe
  rw [yoe_inv yoe doy hy0 hy1 hd0 hd1]
  show civilFromParts era yoe
      (365 * yoe + yoe / 4 - yoe / 100 + doy - (365 * yoe + yoe / 4 - yoe / 100)) =
    civilFromParts era yoe doy
  rw [show 365 * yoe + yoe / 4 - yoe / 100 + doy -
    (365 * yoe + yoe / 4 - yoe / 100) = doy from by ring]

set_option maxHeartbeats 8000000 in
theorem fromOrdinal_toOrdinal (dt : Date) (hv : dt.valid) :
    fromOrdinal (toOrdinal dt) = dt := by
  obtain ⟨yr, m, day⟩ := dt
  simp only [Date.valid] at hv
  obtain ⟨hm1, hm2, hd1, hd2⟩ := hv
  interval_cases m
  · have hc : (((1 : Int)) ≤ 2) := by norm_num
    simp only [toOrdinal, if_pos hc]
    norm_num [daysInMonth] at hd2
    obtain ⟨era, hera⟩ : ∃ v, (yr - 1) / 400 = v := ⟨_, rfl⟩
    simp only [hera]
    obtain ⟨yoe, hyoe⟩ : ∃ v, yr - 1 - era * 400 = v := ⟨_, rfl⟩
    simp only [hyoe]
    have hyb : 0 ≤ yoe ∧ yoe ≤ 399 := by omega
    rw [show (153 * ((1 : Int) + 9) + 2) / 5 + (day - 1) = day + 305 from by omega]
    rw [fromOrdinal_eq_civil era (365 * yoe + yoe / 4 - yoe / 100 + (day + 305)) (by omega) (by omega)]
    rw [civilFromDoe_parts era yoe (day + 305) (by omega) (by omega) (by omega) (by omega)]
    have hmp : (5 * (day + 305) + 2) / 153 = 10 := by omega
    simp only [civilFromParts, hmp]
    norm_num [Date.mk.injEq]
    omega
  · have hc : (((2 : Int)) ≤ 2) := by norm_num
    simp only [toOrdinal, if_pos hc]
    obtain ⟨era, hera⟩ : ∃ v, (yr - 1) / 400 = v := ⟨_, rfl⟩
    simp only [hera]
    obtain ⟨yoe, hyoe⟩ : ∃ v, yr - 1 - era * 400 = v := ⟨_, rfl⟩
    simp only [hyoe]
    have hyb : 0 ≤ yoe ∧ yoe ≤ 399 := by omega
    have hdim : daysInMonth yr 2 = if isLeap yr then 29 else 28 := by
      simp [daysInMonth]
    rw [hdim] at hd2
    have hdayb : day ≤ 29 := by
      by_cases hLeap : isLeap yr
      · rw [if_pos hLeap] at hd2; omega
      · rw [if_neg hLeap] at hd2; omega
    have hdisj : day + 336 ≤ 364 ∨ (day + 336 = 365 ∧ (yoe + 1) % 4 = 0 ∧
        ((yoe + 1) % 100 ≠ 0 ∨ yoe = 399)) := by
      by_cases hLeap : isLeap yr
      · rw [if_pos hLeap] at hd2
        have hLp : yr % 4 = 0 ∧ (yr % 100 ≠ 0 ∨ yr % 400 = 0) := by
          simpa [isLeap, Bool.and_eq_true, beq_iff_eq, bne_iff_ne,
            Bool.or_eq_true] using hLeap
        have hyr : yr = yoe + era * 400 + 1 := by omega
        clear hera
        obtain ⟨hL4, hLor⟩ := hLp
        by_cases hday29 : day = 29
        · right
          refine ⟨by omega, by omega, ?_⟩
          rcases hLor with h | h
          · left; omega
          · right; omega
        · left; omega
      · rw [if_neg hLeap] at hd2
        left
        omega
    rw [show (153 * ((2 : Int) + 9) + 2) / 5 + (day - 1) = day + 336 from by omega]
    rw [fromOrdinal_eq_civil era (365 * yoe + yoe / 4 - yoe / 100 + (day + 336)) (by omega) (by omega)]
    rw [civilFromDoe_parts era yoe (day + 336) (by omega) (by omega) (by omega) hdisj]
    have hmp : (5 * (day + 336) + 2) / 153 = 11 := by omega
    simp only [civilFromParts, hmp]
    norm_num [Date.mk.injEq]
    omega
  · have hc : ¬(((3 : Int)) ≤ 2) := by norm_num
    simp only [toOrdinal, if_neg hc]
    norm_num [daysInMonth] at hd2
    obtain ⟨era, hera⟩ : ∃ v, (yr) / 400 = v := ⟨_, rfl⟩
    simp only [hera]
    obtain ⟨yoe, hyoe⟩ : ∃ v, yr - era * 400 = v := ⟨_, rfl⟩
    simp only [hyoe]
    have hyb : 0 ≤ yoe ∧ yoe ≤ 399 := by omega
    rw [show (153 * ((3 : Int) - 3) + 2) / 5 + (day - 1) = day + -1 from by omega]
    rw [fromOrdinal_eq_civil era (365 * yoe + yoe / 4 - yoe / 100 + (day + -1)) (by omega) (by omega)]
    rw [civilFromDoe_parts era yoe (day + -1) (by omega) (by omega) (by omega) (by omega)]
    have hmp : (5 * (day + -1) + 2) / 153 = 0 := by omega
    simp only [civilFromParts, hmp]
    norm_num [Date.mk.injEq]
    omega
  · have hc : ¬(((4 : Int)) ≤ 2) := by norm_num
    simp only [toOrdinal, if_neg hc]
    norm_num [daysInMonth] at hd2
    obtain ⟨era, hera⟩ : ∃ v, (yr) / 400 = v := ⟨_, rfl⟩
    simp only [hera]
    obtain ⟨yoe, hyoe⟩ : ∃ v, yr - era * 400 = v := ⟨_, rfl⟩
    simp only [hyoe]
    have hyb : 0 ≤ yoe ∧ yoe ≤ 399 := by omega
    rw [show (153 * ((4 : Int) - 3) + 2) / 5 + (day - 1) = day + 30 from by omega]
    rw [fromOrdinal_eq_civil era (365 * yoe + yoe / 4 - yoe / 100 + (day + 30)) (by omega) (by omega)]
    rw [civilFromDoe_parts era yoe (day + 30) (by omega) (by omega) (by omega) (by omega)]
    have hmp : (5 * (day + 30) + 2) / 153 = 1 := by omega
    simp only [civilFromParts, hmp]
    norm_num [Date.mk.injEq]
    omega
  · have hc : ¬(((5 : Int)) ≤ 2) := by norm_num
    simp only [toOrdinal, if_neg hc]
    norm_num [daysInMonth] at hd2
    obtain ⟨era, hera⟩ : ∃ v, (yr) / 400 = v := ⟨_, rfl⟩
    simp only [hera]
    obtain ⟨yoe, hyoe⟩ : ∃ v, yr - era * 400 = v := ⟨_, rfl⟩
    simp only [hyoe]
    have hyb : 0 ≤ yoe ∧ yoe ≤ 399 := by omega
    rw [show (153 * ((5 : Int) - 3) + 2) / 5 + (day - 1) = day + 60 from by omega]
    rw [fromOrdinal_eq_civil era (365 * yoe + yoe / 4 - yoe / 100 + (day + 60)) (by omega) (by omega)]
    rw [civilFromDoe_parts era yoe (day + 60) (by omega) (by omega) (by omega) (by omega)]
    have hmp : (5 * (day + 60) + 2) / 153 = 2 := by omega
    simp only [civilFromParts, hmp]
    norm_num [Date.mk.injEq]
    omega
  · have hc : ¬(((6 : Int)) ≤ 2) := by norm_num
    simp only [toOrdinal, if_neg hc]
    norm_num [daysInMonth] at hd2
    obtain ⟨era, hera⟩ : ∃ v, (yr) / 400 = v := ⟨_, rfl⟩
    simp only [hera]
    obtain ⟨yoe, hyoe⟩ : ∃ v, yr - era * 400 = v := ⟨_, rfl⟩
    simp only [hyoe]
    have hyb : 0 ≤ yoe ∧ yoe ≤ 399 := by omega
    rw [show (153 * ((6 : Int) - 3) + 2) / 5 + (day - 1) = day + 91 from by omega]
    rw [fromOrdinal_eq_civil era (365 * yoe + yoe / 4 - yoe / 100 + (day + 91)) (by omega) (by omega)]
    rw [civilFromDoe_parts era yoe (day + 91) (by omega) (by omega) (by omega) (by omega)]
    have hmp : (5 * (day + 91) + 2) / 153 = 3 := by omega
    simp only [civilFromParts, hmp]
    norm_num [Date.mk.injEq]
    omega
  · have hc : ¬(((7 : Int)) ≤ 2) := by norm_num
    simp only [toOrdinal, if_neg hc]
    norm_num [daysInMonth] at hd2
    obtain ⟨era, hera⟩ : ∃ v, (yr) / 400 = v := ⟨_, rfl⟩
    simp only [hera]
    obtain ⟨yoe, hyoe⟩ : ∃ v, yr - era * 400 = v := ⟨_, rfl⟩
    simp only [hyoe]
    have hyb : 0 ≤ yoe ∧ yoe ≤ 399 := by omega
    rw [show (153 * ((7 : Int) - 3) + 2) / 5 + (day - 1) = day + 121 from by omega]
    rw [fromOrdinal_eq_civil era (365 * yoe + yoe / 4 - yoe / 100 + (day + 121)) (by omega) (by omega)]
    rw [civilFromDoe_parts era yoe (day + 121) (by omega) (by omega) (by omega) (by omega)]
    have hmp : (5 * (day + 121) + 2) / 153 = 4 := by omega
    simp only [civilFromParts, hmp]
    norm_num [Date.mk.injEq]
    omega
  · have hc : ¬(((8 : Int)) ≤ 2) := by norm_num
    simp only [toOrdinal, if_neg hc]
    norm_num [daysInMonth] at hd2
    obtain ⟨era, hera⟩ : ∃ v, (yr) / 400 = v := ⟨_, rfl⟩
    simp only [hera]
    obtain ⟨yoe, hyoe⟩ : ∃ v, yr - era * 400 = v := ⟨_, rfl⟩
    simp only [hyoe]
    have hyb : 0 ≤ yoe ∧ yoe ≤ 399 := by omega
    rw [show (153 * ((8 : Int) - 3) + 2) / 5 + (day - 1) = day + 152 from by omega]
    rw [fromOrdinal_eq_civil era (365 * yoe + yoe / 4 - yoe / 100 + (day + 152)) (by omega) (by omega)]
    rw [civilFromDoe_parts era yoe (day + 152) (by omega) (by omega) (by omega) (by omega)]
    have hmp : (5 * (day + 152) + 2) / 153 = 5 := by omega
    simp only [civilFromParts, hmp]
    norm_num [Date.mk.injEq]
    omega
  · have hc : ¬(((9 : Int)) ≤ 2) := by norm_num
    simp only [toOrdinal, if_neg hc]
    norm_num [daysInMonth] at hd2
    obtain ⟨era, hera⟩ : ∃ v, (yr) / 400 = v := ⟨_, rfl⟩
    simp only [hera]
    obtain ⟨yoe, hyoe⟩ : ∃ v, yr - era * 400 = v := ⟨_, rfl⟩
    simp only [hyoe]
    have hyb : 0 ≤ yoe ∧ yoe ≤ 399 := by omega
    rw [show (153 * ((9 : Int) - 3) + 2) / 5 + (day - 1) = day + 183 from by omega]
    rw [fromOrdinal_eq_civil era (365 * yoe + yoe / 4 - yoe / 100 + (day + 183)) (by omega) (by omega)]
    rw [civilFromDoe_parts era yoe (day + 183) (by omega) (by omega) (by omega) (by omega)]
    have hmp : (5 * (day + 183) + 2) / 153 = 6 := by omega
    simp only [civilFromParts, hmp]
    norm_num [Date.mk.injEq]
    omega
  · have hc : ¬(((10 : Int)) ≤ 2) := by norm_num
    simp only [toOrdinal, if_neg hc]
    norm_num [daysInMonth] at hd2
    obtain ⟨era, hera⟩ : ∃ v, (yr) / 400 = v := ⟨_, rfl⟩
    simp only [hera]
    obtain ⟨yoe, hyoe⟩ : ∃ v, yr - era * 400 = v := ⟨_, rfl⟩
    simp only [hyoe]
    have hyb : 0 ≤ yoe ∧ yoe ≤ 399 := by omega
    rw [show (153 * ((10 : Int) - 3) + 2) / 5 + (day - 1) = day + 213 from by omega]
    rw [fromOrdinal_eq_civil era (365 * yoe + yoe / 4 - yoe / 100 + (day + 213)) (by omega) (by omega)]
    rw [civilFromDoe_parts era yoe (day + 213) (by omega) (by omega) (by omega) (by omega)]
    have hmp : (5 * (day + 213) + 2) / 153 = 7 := by omega
    simp only [civilFromParts, hmp]
    norm_num [Date.mk.injEq]
    omega
  · have hc : ¬(((11 : Int)) ≤ 2) := by norm_num
    simp only [toOrdinal, if_neg hc]
    norm_num [daysInMonth] at hd2
    obtain ⟨era, hera⟩ : ∃ v, (yr) / 400 = v := ⟨_, rfl⟩
    simp only [hera]
    obtain ⟨yoe, hyoe⟩ : ∃ v, yr - era * 400 = v := ⟨_, rfl⟩
    simp only [hyoe]
    have hyb : 0 ≤ yoe ∧ yoe ≤ 399 := by omega
    rw [show (153 * ((11 : Int) - 3) + 2) / 5 + (day - 1) = day + 244 from by omega]
    rw [fromOrdinal_eq_civil era (365 * yoe + yoe / 4 - yoe / 100 + (day + 244)) (by omega) (by omega)]
    rw [civilFromDoe_parts era yoe (day + 244) (by omega) (by omega) (by omega) (by omega)]
    have hmp : (5 * (day + 244) + 2) / 153 = 8 := by omega
    simp only [civilFromParts, hmp]
    norm_num [Date.mk.injEq]
    omega
  · have hc : ¬(((12 : Int)) ≤ 2) := by norm_num
    simp only [toOrdinal, if_neg hc]
    norm_num [daysInMonth] at hd2
    obtain ⟨era, hera⟩ : ∃ v, (yr) / 400 = v := ⟨_, rfl⟩
    simp only [hera]
    obtain ⟨yoe, hyoe⟩ : ∃ v, yr - era * 400 = v := ⟨_, rfl⟩
    simp only [hyoe]
    have hyb : 0 ≤ yoe ∧ yoe ≤ 399 := by omega
    rw [show (153 * ((12 : Int) - 3) + 2) / 5 + (day - 1) = day + 274 from by omega]
    rw [fromOrdinal_eq_civil era (365 * yoe + yoe / 4 - yoe / 100 + (day + 274)) (by omega) (by omega)]
    rw [civilFromDoe_parts era yoe (day + 274) (by omega) (by omega) (by omega) (by omega)]
    have hmp : (5 * (day + 274) + 2) / 153 = 9 := by omega
    simp only [civilFromParts, hmp]
    norm_num [Date.mk.injEq]
    omega


theorem dateRangeLoop_eq (n : ℕ) :
    ∀ cur stop : Int, (stop - cur + 1).toNat = n →
      dateRangeLoop cur stop = (List.range n).map fun i : ℕ => cur + i := by
  induction n with
  | zero =>
    intro cur stop h
    rw [dateRangeLoop, dif_neg (by omega)]
    simp
  | succ k ih =>
    intro cur stop h
    rw [dateRangeLoop, dif_pos (by omega : cur ≤ stop)]
    rw [ih (cur + 1) stop (by omega)]
    rw [List.range_succ_eq_map]
    simp only [List.map_cons, List.map_map]
    congr 1
    · norm_num
    · refine List.map_congr_left fun i _ => ?_
      simp only [Function.comp_apply]
      push_cast
      ring

/-- C8: for valid dates with start not after end, `get_date_range` returns the
dates of the consecutive day ordinals from start to end; consequently its
length is the day span plus one, the first element is the start date, the last
is the end date, and each element is exactly one calendar day after the
previous one. -/
theorem C8_date_range_inclusive (s e : Date) (hs : s.valid) (he : e.valid)
    (hle : toOrdinal s ≤ toOrdinal e) :
    get_date_range s e =
      (List.range (toOrdinal e - toOrdinal s + 1).toNat).map
        (fun i : ℕ => fromOrdinal (toOrdinal s + i)) ∧
    (get_date_range s e).length = (toOrdinal e - toOrdinal s + 1).toNat ∧
    (get_date_range s e).head? = some s ∧
    (get_date_range s e).getLast? = some e ∧
    (∀ i (h1 : i < (get_date_range s e).length)
        (h2 : i + 1 < (get_date_range s e).length),
      toOrdinal ((get_date_range s e).get ⟨i + 1, h2⟩) =
        toOrdinal ((get_date_range s e).get ⟨i, h1⟩) + 1) := by
  obtain ⟨k, hk⟩ : ∃ k, (toOrdinal e - toOrdinal s + 1).toNat = k + 1 :=
    ⟨(toOrdinal e - toOrdinal s + 1).toNat - 1, by omega⟩
  have hmain : get_date_range s e =
      (List.range (toOrdinal e - toOrdinal s + 1).toNat).map
        (fun i : ℕ => fromOrdinal (toOrdinal s + i)) := by
    rw [get_date_range, dateRangeLoop_eq (toOrdinal e - toOrdinal s + 1).toNat
      (toOrdinal s) (toOrdinal e) rfl, List.map_map]
    rfl
  refine ⟨hmain, by rw [hmain]; simp, ?_, ?_, ?_⟩
  · rw [hmain, hk, List.range_succ_eq_map]
    simp [fromOrdinal_toOrdinal s hs]
  · rw [hmain, hk, List.range_succ, List.map_append, List.map_cons,
      List.map_nil, List.getLast?_concat]
    have hcast : (k : Int) = toOrdinal e - toOrdinal s := by omega
    rw [hcast, show toOrdinal s + (toOrdinal e - toOrdinal s) = toOrdinal e
      from by ring, fromOrdinal_toOrdinal e he]
  · intro i h1 h2
    have e1 : (get_date_range s e).get ⟨i + 1, h2⟩ =
        fromOrdinal (toOrdinal s + (i + 1 : ℕ)) := by
      simp [hmain, List.get_eq_getElem, List.getElem_map, List.getElem_range]
    have e2 : (get_date_range s e).get ⟨i, h1⟩ =
        fromOrdinal (toOrdinal s + (i : ℕ)) := by
      simp [hmain, List.get_eq_getElem, List.getElem_map, List.getElem_range]
    rw [e1, e2, toOrdinal_fromOrdinal, toOrdinal_fromOrdinal]
    push_cast
    ring

/-- C8 witness: from 2023-01-01 to 2023-01-05 the helper returns exactly five
dates, starting at the start date and ending at the end date. -/
theorem C8_date_range_witness :
    Date.valid ⟨2023, 1, 1⟩ ∧ Date.valid ⟨2023, 1, 5⟩ ∧
    toOrdinal ⟨2023, 1, 1⟩ ≤ toOrdinal ⟨2023, 1, 5⟩ ∧
    (get_date_range ⟨2023, 1, 1⟩ ⟨2023, 1, 5⟩).length = 5 ∧
    (get_date_range ⟨2023, 1, 1⟩ ⟨2023, 1, 5⟩).head? = some ⟨2023, 1, 1⟩ ∧
    (get_date_range ⟨2023, 1, 1⟩ ⟨2023, 1, 5⟩).getLast? = some ⟨2023, 1, 5⟩ := by
  have h := C8_date_range_inclusive ⟨2023, 1, 1⟩ ⟨2023, 1, 5⟩ (by decide)
    (by decide) (by decide)
  refine ⟨by decide, by decide, by decide, ?_, h.2.2.1, h.2.2.2.1⟩
  rw [h.2.1]
  decide

end Weather
